import Mathlib

/-!
Verification of the Warranty-Claims-Processor core pipeline.

Shallow embedding of the repository's Python sources:
  * `src/tools/decision_tool.py`   (`DecisionTool.build_review_packet`)
  * `src/tools/extraction_tool.py` (`ExtractionTool._to_claim_extract`,
    `ExtractionTool._heuristic_extract`, `ExtractionTool._normalize_product`)
  * `src/tools/policy_retriever.py` (`PolicyRetriever.select_policy`,
    `PolicyRetriever.retrieve_excerpts`, `PolicyRetriever._rank_clauses`,
    `PolicyRetriever._tokenize`, `PolicyRetriever._best_match_from_text`)
  * `src/tools/email_writer.py`    (template fallback path of `EmailWriter.draft`)
  * `src/orchestrator.py`          (`draft_outputs_after_human_decision`)

Modelling conventions:
  * Python strings are Lean `String`; all keyword and template comparisons in
    the source are ASCII, so lowercasing is modelled on ASCII (`lowerStr`).
  * Python calendar dates are modelled as `Int` day numbers; subtraction of
    `datetime.date` values (`.days`) becomes `Int` subtraction, and
    `date.isoformat()` is modelled by `toString` on the day number (no claim
    depends on the literal text of a formatted date).
  * Python truthiness of `Optional[str]` (`None` and `""` are falsy) is
    modelled by `strTruthy`.
  * External, out-of-scope collaborators (the `dateutil` parser and the two
    `re` scans of the heuristic extractor) are oracle parameters; the language
    model path is absent (the spec's core contract is the heuristic path).
  * Mutation of a `ReviewPacket` in the orchestrator is modelled by returning
    the updated packet.
-/

namespace WarrantyClaims

/-! ## String primitives (structural, kernel-reducible) -/

/-- Character-list version of `startswith`. -/
def startsWithChars : List Char → List Char → Bool
  | [], _ => true
  | _ :: _, [] => false
  | a :: as, b :: bs => a == b && startsWithChars as bs

/-- Character-list version of Python's substring test `pat in hay`. -/
def containsChars (pat : List Char) : List Char → Bool
  | [] => pat.isEmpty
  | c :: cs => startsWithChars pat (c :: cs) || containsChars pat cs

/-- Python `pat in hay` on strings. -/
def strContains (hay pat : String) : Bool :=
  containsChars pat.data hay.data

/-- Python `hay.startswith(pat)`. -/
def strStartsWith (hay pat : String) : Bool :=
  startsWithChars pat.data hay.data

/-- Python `hay.endswith(pat)`. -/
def strEndsWith (hay pat : String) : Bool :=
  startsWithChars pat.data.reverse hay.data.reverse

/-- ASCII lowercase of one character (Python `str.lower` on the ASCII range). -/
def lowerChar (c : Char) : Char :=
  if 'A' ≤ c && c ≤ 'Z' then Char.ofNat (c.toNat + 32) else c

/-- ASCII lowercase of a string. -/
def lowerStr (s : String) : String :=
  String.mk (s.data.map lowerChar)

/-- Whitespace characters stripped by Python `str.strip()`. -/
def isWs (c : Char) : Bool :=
  c == ' ' || c == '\t' || c == '\n' || c == '\r' || c == '\x0b' || c == '\x0c'

/-- Python `s.strip()`. -/
def trimStr (s : String) : String :=
  String.mk (((s.data.dropWhile isWs).reverse.dropWhile isWs).reverse)

/-- Python truthiness of an `Optional[str]`: `None` and `""` are falsy. -/
def strTruthy : Option String → Bool
  | none => false
  | some s => !s.isEmpty

/-- Python `a or b` on `Optional[str]` values. -/
def pyOr (a b : Option String) : Option String :=
  if strTruthy a then a else b

/-- Python `a or deflt` where the result must be a plain string. -/
def orDefaultStr (a : Option String) (deflt : String) : String :=
  if strTruthy a then a.getD "" else deflt

/-- Python `str(b)` of a boolean (used in f-strings). -/
def pyBool (b : Bool) : String :=
  if b then "True" else "False"

/-! ## Tokenization (`PolicyRetriever._tokenize`)

Python: lowercase, replace every run of characters outside `[a-z0-9\s]` by a
space, split on whitespace, keep tokens of length ≥ 3, return as a set.  Net
effect: tokens are the maximal runs of `[a-z0-9]` characters of the lowercased
string, length ≥ 3, deduplicated. -/

/-- A character that survives `_tokenize`'s filter: `[a-z0-9]`. -/
def isTokChar (c : Char) : Bool :=
  ('a' ≤ c && c ≤ 'z') || ('0' ≤ c && c ≤ '9')

/-- Split a character list into maximal runs of token characters.
`cur` is the current run, reversed. -/
def tokenRunsAux (cur : List Char) : List Char → List (List Char)
  | [] => if cur.isEmpty then [] else [cur.reverse]
  | c :: cs =>
    if isTokChar c then tokenRunsAux (c :: cur) cs
    else if cur.isEmpty then tokenRunsAux [] cs
    else cur.reverse :: tokenRunsAux [] cs

/-- Order-preserving deduplication (first occurrence wins); models both the
Python `set` of tokens and the explicit de-duplication loop of
`build_review_packet`. -/
def dedupAux (seen : List String) : List String → List String
  | [] => []
  | x :: xs => if seen.contains x then dedupAux seen xs else x :: dedupAux (x :: seen) xs

/-- De-duplicate keeping first-occurrence order. -/
def dedupKeepOrder (l : List String) : List String :=
  dedupAux [] l

/-- Embedding of `PolicyRetriever._tokenize`, as a duplicate-free list. -/
def tokenize (s : String) : List String :=
  dedupKeepOrder (((tokenRunsAux [] (lowerStr s).data).map String.mk).filter
    (fun t => decide (3 ≤ t.data.length)))

/-- Cardinality of `_tokenize(a) ∩ _tokenize(b)` (both sides are sets). -/
def tokenOverlap (a b : String) : Nat :=
  ((tokenize a).filter (fun t => (tokenize b).contains t)).length

/-! ## Data model (`src/schemas.py`) -/

/-- Embedding of `schemas.EmailMessage` (fields used by the core). -/
structure EmailMessage where
  email_id : String
  subject : String
  body : String
  customer_name : Option String := none
  customer_email : Option String := none
  attachments : List String := []
deriving Repr, DecidableEq

/-- Embedding of `schemas.PolicyDoc`. -/
structure PolicyDoc where
  policy_id : String
  product_name : String
  warranty_period_months : Int := 3
  covered_issues : List String := []
  exclusions : List String := []
  required_proof : List String := []
deriving Repr, DecidableEq

/-- Embedding of `schemas.ClaimExtract`.  Calendar dates are `Int` day numbers;
`extraction_confidence` is one of `"high"`, `"medium"`, `"low"`. -/
structure ClaimExtract where
  customer_name : Option String := none
  customer_email : Option String := none
  customer_phone : Option String := none
  product_name : Option String := none
  product_model_hint : Option String := none
  serial_number : Option String := none
  purchase_date : Option Int := none
  order_id : Option String := none
  retailer : Option String := none
  issue_description : String
  evidence_provided : List String := []
  proof_of_purchase_present : Bool := false
  shipping_address : Option String := none
  missing_fields : List String := []
  extraction_confidence : String := "medium"
deriving Repr, DecidableEq

/-- Embedding of `schemas.PolicyExcerpt` (`section` is a Lean keyword, hence
`sectionName`). -/
structure PolicyExcerpt where
  sectionName : String
  excerpt : String
  policy_id : Option String := none
deriving Repr, DecidableEq

/-- The four evidence-checklist booleans of `build_review_packet`. -/
structure EvidenceChecklist where
  product_name : Bool
  purchase_date : Bool
  proof_of_purchase : Bool
  shipping_address : Bool
deriving Repr, DecidableEq

/-- Embedding of `schemas.ReviewPacket` (core fields; `created_at` is wall-clock and
`triage_label`/`routing_notes` are stamped by Phase 1 of the orchestrator,
outside every claim considered here). -/
structure ReviewPacket where
  packet_id : String
  email_id : String
  extracted : ClaimExtract
  selected_policy_id : String
  selected_policy_product_name : String
  policy_selection_reason : String
  referenced_policy_excerpts : List PolicyExcerpt
  evidence_checklist : EvidenceChecklist
  recommendation : String
  confidence : String
  uncertainty_notes : List String
  facts : List String
  assumptions : List String
  reasoning : List String
  customer_followup_questions : List String
deriving Repr, DecidableEq

/-! ## Decision engine (`src/tools/decision_tool.py`) -/

/-- Exclusion detection of `build_review_packet` (lines 104–119): three
independent keyword rules over the lowercased issue text; a later rule that
fires overwrites the reason left by an earlier one. -/
def exclusion_reason_of (issue_lower : String) : Option String :=
  let hit : List String → Bool := fun ks => ks.any (fun k => strContains issue_lower k)
  let r : Option String := none
  let r := if hit ["voltage converter", "converter", "240v", "220v", "abroad",
                   "international voltage"]
           then some "Used with a voltage converter / non-standard voltage (excluded)."
           else r
  let r := if hit ["travel", "flight", "airline", "suitcase", "luggage"] &&
              hit ["crack", "cracked", "broken", "damage", "damaged"]
           then some "Travel / airline handling damage (excluded)."
           else r
  let r := if hit ["attachment", "nozzle", "diffuser"] &&
              hit ["loose", "does not fit", "doesn\x27t fit", "no longer fits",
                   "fits securely"]
           then some "Accessory wear/fitment issue (treated as wear & tear / accessory not covered)."
           else r
  r

/-- Embedding of `find_policy_exclusion_excerpt` (lines 122–126): the text of the first
referenced excerpt whose section starts with `"exclusion"` (lowercased). -/
def find_policy_exclusion_excerpt (referenced_excerpts : List PolicyExcerpt) :
    Option String :=
  (referenced_excerpts.find? (fun ex =>
    strStartsWith (lowerStr ex.sectionName) "exclusion")).map (fun ex => ex.excerpt)

/-- Recommendation resolution of `build_review_packet` (lines 150–188):
returns `(recommendation, confidence, reasoning lines this step appends)`.
The source initialises `(NEED_MORE_INFO, low)` and overwrites through an
`if`/`elif` chain; the match below covers the identical cases. -/
def resolve_decision (issue_lower : String) (proof : Bool) (in_window : Option Bool)
    (excl : Option String) (referenced_excerpts : List PolicyExcerpt) :
    String × String × List String :=
  match excl with
  | some er =>
      ("REJECT", "high",
        ("Claim matches an exclusion condition: " ++ er) ::
        (match find_policy_exclusion_excerpt referenced_excerpts with
         | some t => ["Policy basis (exclusion excerpt): " ++ t]
         | none => ["Policy basis: exclusion section applies (see referenced excerpts)."]))
  | none =>
      match in_window with
      | some true =>
          ("APPROVE", if proof then "high" else "medium",
            ["No applicable exclusions found in the referenced policy sections.",
             "Claim is within the warranty window; approval is recommended."])
      | some false =>
          ("REJECT", "high",
            ["Purchase date indicates the claim is outside the warranty window; rejection is recommended."])
      | none =>
          if strContains issue_lower "last month" then
            ("APPROVE", "medium",
              ["Customer indicates purchase was last month; likely within warranty window.",
               "Approval is recommended, but exact purchase date must be confirmed."])
          else
            ("NEED_MORE_INFO", "low",
              ["Cannot confirm warranty eligibility without purchase date."])

/-- Embedding of `DecisionTool.build_review_packet` (decision_tool.py lines 32–228) for a
fixed value `today` of `date.today()` (as a day number). -/
def build_review_packet (today : Int) (packet_id email_id : String)
    (claim : ClaimExtract) (policy : PolicyDoc) (policy_selection_reason : String)
    (referenced_excerpts : List PolicyExcerpt) : ReviewPacket :=
  let evidence_checklist : EvidenceChecklist :=
    { product_name := strTruthy claim.product_name
      purchase_date := claim.purchase_date.isSome
      proof_of_purchase := claim.proof_of_purchase_present
      shipping_address := strTruthy claim.shipping_address }
  let issue_lower := lowerStr claim.issue_description
  let facts : List String :=
    ["Issue reported: " ++ claim.issue_description,
     "Selected policy: " ++ policy.product_name ++ " (" ++ policy.policy_id ++ ")",
     "Policy selection reason: " ++ policy_selection_reason]
  let facts := facts ++
    (if strTruthy claim.product_name then
      ["Extracted product: " ++ claim.product_name.getD ""]
     else ["Product model not confidently identified from the email."])
  let facts := facts ++
    (match claim.purchase_date with
     | some d => ["Purchase date provided: " ++ toString d]
     | none => ["Exact purchase date not provided in the email."])
  let facts := facts ++ ["Proof of purchase present: " ++ pyBool claim.proof_of_purchase_present]
  let facts := facts ++
    (if referenced_excerpts.isEmpty then []
     else "Relevant policy sections reviewed (referenced excerpts):" ::
       referenced_excerpts.map (fun ex => "- [" ++ ex.sectionName ++ "] " ++ ex.excerpt))
  let in_window : Option Bool :=
    claim.purchase_date.map (fun d => decide (today - d ≤ policy.warranty_period_months * 30))
  let reasoning : List String :=
    match claim.purchase_date with
    | some d =>
        ["Warranty window check: " ++ toString (today - d) ++
         " days since purchase (limit ~" ++ toString (policy.warranty_period_months * 30) ++ " days)."]
    | none => []
  let assumptions : List String :=
    match claim.purchase_date with
    | some _ => []
    | none =>
        if strContains issue_lower "last month" then
          ["Customer indicates purchase within the last month; likely within warranty window."]
        else
          ["Purchase date missing; cannot confirm warranty window without follow-up."]
  let excl := exclusion_reason_of issue_lower
  let followups : List String :=
    (if strTruthy claim.product_name then []
     else ["Please confirm the exact product model name (e.g., AeroDry Pro 1800)."]) ++
    (if claim.proof_of_purchase_present then []
     else ["Please provide proof of purchase (invoice/receipt or order ID)."]) ++
    (if claim.purchase_date.isSome then []
     else ["Please confirm the exact purchase date (or share the receipt showing the date)."])
  let uncertainty : List String :=
    (if strTruthy claim.product_name then []
     else ["Product model missing; policy match may be incorrect."]) ++
    (if strTruthy claim.shipping_address then []
     else ["Shipping address missing; required to generate return label after approval."])
  let rcr := resolve_decision issue_lower claim.proof_of_purchase_present in_window excl
    referenced_excerpts
  let recommendation := rcr.1
  let confidence := rcr.2.1
  let reasoning := reasoning ++ rcr.2.2
  let address_patch := recommendation == "APPROVE" && !(strTruthy claim.shipping_address)
  let followups := if address_patch then
      followups ++ ["Please provide your shipping/return address so we can generate the return label."]
    else followups
  let reasoning := if address_patch then
      reasoning ++ ["Shipping address is needed to proceed with logistics after approval (does not affect eligibility)."]
    else reasoning
  let reasoning := if reasoning.isEmpty then
      ["Recommendation based on available claim details and referenced policy sections."]
    else reasoning
  { packet_id := packet_id
    email_id := email_id
    extracted := claim
    selected_policy_id := policy.policy_id
    selected_policy_product_name := policy.product_name
    policy_selection_reason := policy_selection_reason
    referenced_policy_excerpts := referenced_excerpts
    evidence_checklist := evidence_checklist
    recommendation := recommendation
    confidence := confidence
    uncertainty_notes := uncertainty
    facts := facts
    assumptions := assumptions
    reasoning := reasoning
    customer_followup_questions := dedupKeepOrder followups }

/-! ## Claim extraction (`src/tools/extraction_tool.py`) -/

/-- Embedding of `extraction_tool._LLMExtract`: the intermediate record produced by either
the language-model call or `_heuristic_extract`. -/
structure LLMExtract where
  customer_name : Option String := none
  customer_email : Option String := none
  customer_phone : Option String := none
  product_name : Option String := none
  product_model_hint : Option String := none
  serial_number : Option String := none
  purchase_date : Option String := none
  order_id : Option String := none
  retailer : Option String := none
  issue_description : String
  shipping_address : Option String := none
  evidence_provided : List String := []
  proof_of_purchase_present : Bool := false
deriving Repr, DecidableEq

/-- Embedding of `extraction_tool.ExtractionConfig`. -/
structure ExtractionConfig where
  known_products : List String
  require_address : Bool := false
deriving Repr, DecidableEq

/-- Keep only `[a-z0-9]` characters (the `re.sub(r"[^a-z0-9]+", "", ·)` step
of `_normalize_product`; its input is already lowercased). -/
def cleanAlnum (s : String) : String :=
  String.mk (s.data.filter isTokChar)

/-- Embedding of `ExtractionTool._normalize_product` (lines 190–212). -/
def normalize_product (known_products : List String) (raw : String) : String :=
  if raw.isEmpty then ""
  else
    let raw_l := lowerStr raw
    match known_products.find? (fun p =>
        strContains raw_l (lowerStr p) || strContains (lowerStr p) raw_l) with
    | some p => p
    | none =>
        let raw_clean := cleanAlnum raw_l
        match (if raw_clean.isEmpty then none
               else known_products.find? (fun p =>
                 strContains (cleanAlnum (lowerStr p)) raw_clean)) with
        | some p => p
        | none => ""

/-- Attachment filename looks like an invoice/receipt/order document
(`_to_claim_extract` lines 124–128): keyword in the name AND an image/PDF
extension. -/
def attachment_is_proof (a : String) : Bool :=
  (strEndsWith (lowerStr a) ".pdf" || strEndsWith (lowerStr a) ".png" ||
   strEndsWith (lowerStr a) ".jpg" || strEndsWith (lowerStr a) ".jpeg") &&
  (strContains (lowerStr a) "invoice" || strContains (lowerStr a) "receipt" ||
   strContains (lowerStr a) "order")

/-- Attachment filename contains a proof keyword, with NO extension check
(`_heuristic_extract` lines 246–250). -/
def attachment_has_proof_word (a : String) : Bool :=
  strContains (lowerStr a) "invoice" || strContains (lowerStr a) "receipt" ||
  strContains (lowerStr a) "order"

/-- Embedding of `ExtractionTool._to_claim_extract` (lines 117–179).  `parse_date` is the
oracle for the external `dateutil` parser (`_parse_date_safe`); it returns
the parsed day number or `none` on failure. -/
def to_claim_extract (cfg : ExtractionConfig) (parse_date : String → Option Int)
    (email : EmailMessage) (data : LLMExtract) : ClaimExtract :=
  let parsed_purchase_date : Option Int :=
    if strTruthy data.purchase_date then parse_date (data.purchase_date.getD "") else none
  let proof_from_attachments := email.attachments.any attachment_is_proof
  let proof_present := data.proof_of_purchase_present || proof_from_attachments
  let product_name := normalize_product cfg.known_products
    (orDefaultStr (pyOr data.product_name data.product_model_hint) "")
  let missing : List String :=
    (if strTruthy data.customer_name || strTruthy email.customer_name then []
     else ["customer_name"]) ++
    (if product_name.isEmpty then ["product_name"] else []) ++
    (if parsed_purchase_date.isNone then ["purchase_date"] else []) ++
    (if (trimStr data.issue_description).isEmpty then ["issue_description"] else []) ++
    (if proof_present then [] else ["proof_of_purchase"]) ++
    (if cfg.require_address && !(strTruthy data.shipping_address) then ["shipping_address"]
     else [])
  let confidence :=
    if 3 ≤ missing.length then "low"
    else if 1 ≤ missing.length then "medium"
    else "high"
  { customer_name := pyOr data.customer_name email.customer_name
    customer_email := pyOr data.customer_email email.customer_email
    customer_phone := data.customer_phone
    product_name := if product_name.isEmpty then none else some product_name
    product_model_hint := data.product_model_hint
    serial_number := data.serial_number
    purchase_date := parsed_purchase_date
    order_id := data.order_id
    retailer := if strTruthy data.retailer then data.retailer else some "Amazon"
    issue_description := trimStr data.issue_description
    evidence_provided := if data.evidence_provided.isEmpty then [] else data.evidence_provided
    proof_of_purchase_present := proof_present
    shipping_address := data.shipping_address
    missing_fields := missing
    extraction_confidence := confidence }

/-- Embedding of `ExtractionTool._heuristic_extract` (lines 217–267).  The two `re` scans
over `subject + "\n" + body` are oracle parameters: `order_scan` models the
order-id regex search and `date_scan` models the date-pattern scan followed
by `_parse_date_safe` (returning the parsed day number). -/
def heuristic_extract (cfg : ExtractionConfig)
    (order_scan : String → Option String) (date_scan : String → Option Int)
    (email : EmailMessage) : LLMExtract :=
  let text := email.subject ++ "\n" ++ email.body
  let low := lowerStr text
  let product_guess := cfg.known_products.find? (fun p => strContains low (lowerStr p))
  let order_id := order_scan text
  let purchase_date_iso := (date_scan text).map toString
  let proof := email.attachments.any attachment_has_proof_word
  let issue_desc0 := trimStr email.body
  let issue_desc :=
    if 400 < issue_desc0.data.length then String.mk (issue_desc0.data.take 400) ++ "..."
    else issue_desc0
  { customer_name := email.customer_name
    product_name := product_guess
    purchase_date := purchase_date_iso
    order_id := order_id
    retailer := some "Amazon"
    issue_description := issue_desc
    evidence_provided := if email.attachments.isEmpty then [] else ["attachments_present"]
    proof_of_purchase_present := proof
    shipping_address := none }

/-- Embedding of `ExtractionTool.extract` post-LLM path: every extraction result is
`_to_claim_extract` applied to some `_LLMExtract` record (the model's output
or the heuristic fallback). -/
def extract_with (cfg : ExtractionConfig) (parse_date : String → Option Int)
    (email : EmailMessage) (data : LLMExtract) : ClaimExtract :=
  to_claim_extract cfg parse_date email data

/-- Embedding of `ExtractionTool.extract` when no language model is configured (`llm is
None`): heuristic extraction followed by post-processing. -/
def extract_heuristic (cfg : ExtractionConfig) (parse_date : String → Option Int)
    (order_scan : String → Option String) (date_scan : String → Option Int)
    (email : EmailMessage) : ClaimExtract :=
  extract_with cfg parse_date email (heuristic_extract cfg order_scan date_scan email)

/-! ## Policy retrieval (`src/tools/policy_retriever.py`) -/

/-- Embedding of `PolicyRetriever.get_policy_by_product` (lines 41–45): case-insensitive
exact lookup after stripping whitespace. -/
def get_policy_by_product (policies : List PolicyDoc) (product_name : String) :
    Option PolicyDoc :=
  policies.find? (fun p =>
    lowerStr (trimStr p.product_name) == lowerStr (trimStr product_name))

/-- Score of one policy in `_best_match_from_text` (lines 156–163): token
overlap of the text with the product name, +3 if the full product name occurs
in the text (case-insensitive). -/
def match_score (text : String) (p : PolicyDoc) : Nat :=
  tokenOverlap text p.product_name +
    (if strContains (lowerStr text) (lowerStr p.product_name) then 3 else 0)

/-- One step of the `_best_match_from_text` loop: the running
`(best, best_score)` pair is updated only on a strictly larger score. -/
def bm_step (text : String) (acc : Option PolicyDoc × Nat) (p : PolicyDoc) :
    Option PolicyDoc × Nat :=
  let s := match_score text p
  if acc.2 < s then (some p, s) else acc

/-- The whole loop of `_best_match_from_text`, starting from
`best = None, best_score = 0`. -/
def best_match_fold (text : String) (policies : List PolicyDoc) :
    Option PolicyDoc × Nat :=
  policies.foldl (bm_step text) (none, 0)

/-- Embedding of `PolicyRetriever._best_match_from_text` (lines 146–168). -/
def best_match_from_text (policies : List PolicyDoc) (text : String) :
    Option PolicyDoc :=
  if text.isEmpty then none
  else if (tokenize text).isEmpty then none
  else (best_match_fold text policies).1

/-- Embedding of `PolicyRetriever.select_policy` (lines 47–80).  The Python raises
`RuntimeError` on an empty catalog, modelled as `none`. -/
def select_policy (policies : List PolicyDoc) (claim : ClaimExtract) :
    Option (PolicyDoc × String) :=
  match policies with
  | [] => none
  | p0 :: _ =>
      let step1 : Option (PolicyDoc × String) :=
        if strTruthy claim.product_name then
          (get_policy_by_product policies (claim.product_name.getD "")).map (fun p =>
            (p, "Exact match on product_name=\x27" ++ claim.product_name.getD "" ++ "\x27."))
        else none
      match step1 with
      | some r => some r
      | none =>
          let hint := trimStr (claim.product_model_hint.getD "")
          let step2 : Option (PolicyDoc × String) :=
            if !hint.isEmpty then
              (best_match_from_text policies hint).map (fun p =>
                (p, "Matched policy using product_model_hint=\x27" ++ hint ++ "\x27."))
            else none
          match step2 with
          | some r => some r
          | none =>
              let combined := trimStr ((claim.product_name.getD "") ++ " " ++
                (claim.product_model_hint.getD "") ++ " " ++ claim.issue_description)
              match best_match_from_text policies combined with
              | some p =>
                  some (p, "Selected best-matching policy using token overlap on claim text.")
              | none =>
                  some (p0, "Fallback: defaulted to first policy (no match found).")

/-- Stable descending insertion by the first (overlap) component:
an element moves ahead only of strictly smaller keys, so elements with equal
keys keep their original relative order — the same result as Python's stable
`sort(key=…, reverse=True)`. -/
def insertByOverlap (x : Nat × String) : List (Nat × String) → List (Nat × String)
  | [] => [x]
  | y :: ys => if x.1 < y.1 then y :: insertByOverlap x ys else x :: y :: ys

/-- Stable descending sort by the overlap key. -/
def sortByOverlapDesc : List (Nat × String) → List (Nat × String)
  | [] => []
  | x :: xs => insertByOverlap x (sortByOverlapDesc xs)

/-- Embedding of `PolicyRetriever._rank_clauses` (lines 170–181): clauses sorted by
descending token overlap with the issue text, stably. -/
def rank_clauses (clauses : List String) (issue_text_lower : String) : List String :=
  (sortByOverlapDesc (clauses.map (fun c => (tokenOverlap issue_text_lower c, c)))).map
    (fun sc => sc.2)

/-- The exclusion clauses emitted by `retrieve_excerpts` (line 109):
`exclusions_sorted[:3] if exclusions_sorted else policy.exclusions[:2]`. -/
def exclusion_pick (policy : PolicyDoc) (issue : String) : List String :=
  let ranked := rank_clauses policy.exclusions issue
  if ranked.isEmpty then policy.exclusions.take 2 else ranked.take 3

/-- Embedding of `PolicyRetriever.retrieve_excerpts` (lines 82–120). -/
def retrieve_excerpts (policy : PolicyDoc) (claim : ClaimExtract) :
    List PolicyExcerpt :=
  let issue := lowerStr claim.issue_description
  [{ sectionName := "Warranty Period"
     excerpt := toString policy.warranty_period_months ++ " months from purchase date"
     policy_id := some policy.policy_id }] ++
  ((rank_clauses policy.covered_issues issue).take 3).map (fun c =>
    { sectionName := "Covered Issues", excerpt := c, policy_id := some policy.policy_id }) ++
  (exclusion_pick policy issue).map (fun e =>
    { sectionName := "Exclusions", excerpt := e, policy_id := some policy.policy_id }) ++
  policy.required_proof.map (fun r =>
    { sectionName := "Required Proof", excerpt := r, policy_id := some policy.policy_id })

/-! ## Email drafting (`src/tools/email_writer.py`, template fallback path) -/

/-- Embedding of `email_writer.EmailWriterConfig`. -/
structure EmailWriterConfig where
  company_name : String := "AeroDry Support"
  support_email : String := "support@aerodry.example"
  escalation_line : String :=
    "If you believe this decision is incorrect, reply to this email with additional details and we will review again."
  signature : String := "AeroDry Warranty Team"
deriving Repr, DecidableEq

/-- Embedding of `EmailWriter._approve_template` (lines 159–173). -/
def approve_template (cfg : EmailWriterConfig) (name product : String)
    (label_ref : Option String) : String :=
  let label_line :=
    if strTruthy label_ref then "Return label: " ++ label_ref.getD ""
    else "Return label: (will be provided upon confirmation)"
  "Hi " ++ name ++ ",\n\n" ++
  "Thanks for reaching out. Based on the information provided, we can proceed with your warranty claim for " ++
  product ++ ".\n\n" ++
  "Next steps:\n" ++
  "1) Please package the item securely.\n" ++
  "2) Use the return shipping label below to send it back.\n" ++
  "3) Once we receive and inspect the unit, we will ship a replacement.\n\n" ++
  label_line ++ "\n\n" ++
  "If you have any questions, just reply to this email.\n\n" ++
  "Best regards,\n" ++ cfg.signature

/-- Embedding of `EmailWriter._reject_template` (lines 175–182). -/
def reject_template (cfg : EmailWriterConfig) (name product reason : String) : String :=
  "Hi " ++ name ++ ",\n\n" ++
  "Thanks for contacting us about your " ++ product ++
  ". After reviewing your claim, we’re unable to approve it under the warranty.\n\n" ++
  "Reason: This issue falls under an exclusion/requirement in the policy (e.g., " ++
  reason ++ ").\n\n" ++
  cfg.escalation_line ++ "\n\n" ++
  "Best regards,\n" ++ cfg.signature

/-- Embedding of `EmailWriter._more_info_template` (lines 184–192). -/
def more_info_template (cfg : EmailWriterConfig) (name product : String)
    (questions : List String) : String :=
  let questions_text := String.intercalate "\n" (questions.map (fun q => "- " ++ q))
  "Hi " ++ name ++ ",\n\n" ++
  "Thanks for reaching out about your " ++ product ++
  ". We can help, but we need a bit more information to continue processing your warranty claim:\n\n" ++
  questions_text ++ "\n\n" ++
  "Once you reply with the above details, we’ll review and get back to you quickly.\n\n" ++
  "Best regards,\n" ++ cfg.signature

/-- Embedding of `EmailWriter._draft_template` (lines 122–154); this is `EmailWriter.draft`
when no language model is configured.  The `policy` argument is unused in the
template path, matching the source. -/
def draft_template (cfg : EmailWriterConfig) (packet : ReviewPacket)
    (_policy : PolicyDoc) (return_label_ref : Option String) : String :=
  let name := orDefaultStr packet.extracted.customer_name "Customer"
  let product := orDefaultStr packet.extracted.product_name
    (orDefaultStr packet.extracted.product_model_hint "your AeroDry hair dryer")
  if packet.recommendation == "APPROVE" then
    approve_template cfg name product return_label_ref
  else if packet.recommendation == "REJECT" then
    let exclusion_line := (packet.referenced_policy_excerpts.find? (fun e =>
      strStartsWith (lowerStr e.sectionName) "exclusion")).map (fun e => e.excerpt)
    reject_template cfg name product (orDefaultStr exclusion_line "the warranty policy terms")
  else
    let questions :=
      if packet.customer_followup_questions.isEmpty then
        ["Please provide your proof of purchase (Amazon invoice or order ID).",
         "Please confirm the purchase date.",
         "Please confirm the exact product model name.",
         "Please provide your shipping address."]
      else packet.customer_followup_questions
    more_info_template cfg name product questions

/-! ## Orchestrator Phase 2 (`src/orchestrator.py` lines 104–194) -/

/-- Result of `draft_outputs_after_human_decision`: the packet after its
in-place mutation, plus the returned dictionary's `drafted_email` and
`label_ref` entries. -/
structure Phase2Result where
  packet : ReviewPacket
  drafted_email : String
  label_ref : Option String
deriving Repr

/-- Embedding of `WarrantyClaimsOrchestrator.draft_outputs_after_human_decision`.
`label_gen` is the oracle for `LabelGenerator.generate` (it draws a random
uuid and writes a file; only the returned filename reference matters here).
The source's defensive `customer_followup_questions is None` normalisation
cannot arise (the field is a list). -/
def draft_outputs_after_human_decision (cfg : EmailWriterConfig)
    (label_gen : ClaimExtract → String → String)
    (packet : ReviewPacket) (policy : PolicyDoc) (human_decision : String) :
    Phase2Result :=
  if human_decision == "APPROVED" then
    if !(strTruthy packet.extracted.shipping_address) then
      let packet := { packet with
        recommendation := "NEED_MORE_INFO"
        customer_followup_questions :=
          ["Please provide your shipping/return address so we can generate the return label."] }
      { packet := packet
        drafted_email := draft_template cfg packet policy none
        label_ref := none }
    else
      let packet := { packet with recommendation := "APPROVE" }
      let label_ref := label_gen packet.extracted packet.email_id
      { packet := packet
        drafted_email := draft_template cfg packet policy (some label_ref)
        label_ref := some label_ref }
  else if human_decision == "REJECTED" then
    let packet := { packet with recommendation := "REJECT" }
    { packet := packet
      drafted_email := draft_template cfg packet policy none
      label_ref := none }
  else
    let packet := { packet with recommendation := "NEED_MORE_INFO" }
    { packet := packet
      drafted_email := draft_template cfg packet policy none
      label_ref := none }

/-! ## Helper lemmas -/

theorem mem_dedupAux {a : String} :
    ∀ (l seen : List String), a ∈ dedupAux seen l ↔ (a ∈ l ∧ a ∉ seen) := by
  intro l
  induction l with
  | nil => intro seen; simp [dedupAux]
  | cons x xs ih =>
      intro seen
      rw [dedupAux]
      by_cases hx : x ∈ seen
      · rw [if_pos (by simpa using hx), ih]
        constructor
        · rintro ⟨h1, h2⟩
          exact ⟨List.mem_cons_of_mem _ h1, h2⟩
        · rintro ⟨h1, h2⟩
          rcases List.mem_cons.mp h1 with rfl | h1
          · exact absurd hx h2
          · exact ⟨h1, h2⟩
      · rw [if_neg (by simpa using hx)]
        constructor
        · intro hmem
          rcases List.mem_cons.mp hmem with rfl | h1
          · exact ⟨List.mem_cons_self _ _, hx⟩
          · rcases (ih (x :: seen)).mp h1 with ⟨ha1, ha2⟩
            exact ⟨List.mem_cons_of_mem _ ha1,
              fun hc => ha2 (List.mem_cons_of_mem _ hc)⟩
        · rintro ⟨h1, h2⟩
          rcases List.mem_cons.mp h1 with rfl | h1
          · exact List.mem_cons_self _ _
          · by_cases hax : a = x
            · subst hax; exact List.mem_cons_self _ _
            · refine List.mem_cons_of_mem _ ((ih (x :: seen)).mpr ⟨h1, fun hc => ?_⟩)
              rcases List.mem_cons.mp hc with h | h
              · exact hax h
              · exact h2 h

theorem mem_dedupKeepOrder {a : String} {l : List String} :
    a ∈ dedupKeepOrder l ↔ a ∈ l := by
  rw [dedupKeepOrder, mem_dedupAux]; simp

theorem strLength_append (s t : String) : (s ++ t).length = s.length + t.length := by
  cases s; cases t; simp [String.length, String.append]

theorem more_info_template_ne_empty (cfg : EmailWriterConfig) (name product : String)
    (questions : List String) : more_info_template cfg name product questions ≠ "" := by
  intro h
  have hlen := congrArg String.length h
  simp only [more_info_template, strLength_append] at hlen
  rw [show ("Hi " : String).length = 3 from rfl,
    show ("" : String).length = 0 from rfl] at hlen
  omega

/-! ## Claim C2 — post-approval downgrade when the address is missing -/

/-- C2: for every packet whose extracted shipping address is absent,
`draft_outputs_after_human_decision` with `human_decision = "APPROVED"` sets
the recommendation to NEED_MORE_INFO, replaces the follow-up questions with
exactly one address request, drafts a (non-empty) email, and returns no
label reference. -/
theorem approved_without_address_downgrades
    (cfg : EmailWriterConfig) (label_gen : ClaimExtract → String → String)
    (packet : ReviewPacket) (policy : PolicyDoc)
    (h : strTruthy packet.extracted.shipping_address = false) :
    (draft_outputs_after_human_decision cfg label_gen packet policy "APPROVED").packet.recommendation
        = "NEED_MORE_INFO" ∧
    (draft_outputs_after_human_decision cfg label_gen packet policy "APPROVED").packet.customer_followup_questions
        = ["Please provide your shipping/return address so we can generate the return label."] ∧
    (draft_outputs_after_human_decision cfg label_gen packet policy "APPROVED").label_ref = none ∧
    (draft_outputs_after_human_decision cfg label_gen packet policy "APPROVED").drafted_email ≠ "" := by
  have hr : draft_outputs_after_human_decision cfg label_gen packet policy "APPROVED" =
      { packet := { packet with
          recommendation := "NEED_MORE_INFO"
          customer_followup_questions :=
            ["Please provide your shipping/return address so we can generate the return label."] }
        drafted_email := draft_template cfg
          { packet with
            recommendation := "NEED_MORE_INFO"
            customer_followup_questions :=
              ["Please provide your shipping/return address so we can generate the return label."] }
          policy none
        label_ref := none } := by
    rw [draft_outputs_after_human_decision]
    simp [h]
  rw [hr]
  refine ⟨rfl, rfl, rfl, ?_⟩
  rw [draft_template]
  simp only [ReviewPacket.mk.injEq]
  show more_info_template cfg _ _ _ ≠ ""
  exact more_info_template_ne_empty _ _ _ _

/-- C2 witness: a concrete packet without a shipping address. -/
def sampleClaim : ClaimExtract :=
  { issue_description := "the motor stopped working"
    purchase_date := some 100
    proof_of_purchase_present := true }

/-- Concrete policy used by witnesses. -/
def samplePolicy : PolicyDoc :=
  { policy_id := "policy_aerodry_pro_1800"
    product_name := "AeroDry Pro 1800"
    warranty_period_months := 3 }

/-- Concrete review packet used by the phase-2 witnesses. -/
def samplePacket : ReviewPacket :=
  build_review_packet 110 "pkt_1" "em_1" sampleClaim samplePolicy "reason" []

theorem approved_without_address_downgrades_witness :
    (draft_outputs_after_human_decision {} (fun _ _ => "label.txt") samplePacket samplePolicy
      "APPROVED").packet.recommendation = "NEED_MORE_INFO" :=
  (approved_without_address_downgrades {} (fun _ _ => "label.txt") samplePacket samplePolicy
    (by decide)).1

/-! ## Claim C10 — unrecognized human decisions fall into the MORE_INFO branch -/

/-- C10: any `human_decision` other than `"APPROVED"` and `"REJECTED"` takes
the MORE_INFO_REQUESTED branch: recommendation becomes NEED_MORE_INFO, an
email is drafted, no label is produced, and no error is raised (the function
is total). -/
theorem unknown_decision_treated_as_more_info
    (cfg : EmailWriterConfig) (label_gen : ClaimExtract → String → String)
    (packet : ReviewPacket) (policy : PolicyDoc) (human_decision : String)
    (h1 : human_decision ≠ "APPROVED") (h2 : human_decision ≠ "REJECTED") :
    (draft_outputs_after_human_decision cfg label_gen packet policy human_decision).packet.recommendation
        = "NEED_MORE_INFO" ∧
    (draft_outputs_after_human_decision cfg label_gen packet policy human_decision).label_ref = none ∧
    (draft_outputs_after_human_decision cfg label_gen packet policy human_decision).packet
        = { packet with recommendation := "NEED_MORE_INFO" } := by
  rw [draft_outputs_after_human_decision]
  simp [h1, h2]

theorem unknown_decision_treated_as_more_info_witness :
    (draft_outputs_after_human_decision {} (fun _ _ => "label.txt") samplePacket samplePolicy
      "ESCALATED").packet.recommendation = "NEED_MORE_INFO" :=
  (unknown_decision_treated_as_more_info {} (fun _ _ => "label.txt") samplePacket samplePolicy
    "ESCALATED" (by decide) (by decide)).1

/-! ## Claim C8 — determinism of the decision engine -/

/-- C8: for a fixed value of today's date, `build_review_packet` is
deterministic — two calls with identical arguments produce identical
recommendation, confidence, facts and reasoning (they produce identical
packets).  The embedding is a pure function; the only effectful computation
of the source (`datetime.utcnow()` for `created_at`) does not feed any of
those fields. -/
theorem build_review_packet_deterministic
    (today today' : Int) (pid pid' eid eid' : String) (claim claim' : ClaimExtract)
    (policy policy' : PolicyDoc) (reason reason' : String)
    (excerpts excerpts' : List PolicyExcerpt)
    (ht : today = today') (hp : pid = pid') (he : eid = eid') (hc : claim = claim')
    (hpo : policy = policy') (hr : reason = reason') (hx : excerpts = excerpts') :
    (build_review_packet today pid eid claim policy reason excerpts).recommendation
      = (build_review_packet today' pid' eid' claim' policy' reason' excerpts').recommendation ∧
    (build_review_packet today pid eid claim policy reason excerpts).confidence
      = (build_review_packet today' pid' eid' claim' policy' reason' excerpts').confidence ∧
    (build_review_packet today pid eid claim policy reason excerpts).facts
      = (build_review_packet today' pid' eid' claim' policy' reason' excerpts').facts ∧
    (build_review_packet today pid eid claim policy reason excerpts).reasoning
      = (build_review_packet today' pid' eid' claim' policy' reason' excerpts').reasoning := by
  subst ht hp he hc hpo hr hx
  exact ⟨rfl, rfl, rfl, rfl⟩

theorem build_review_packet_deterministic_witness :
    (build_review_packet 110 "pkt_1" "em_1" sampleClaim samplePolicy "reason" []).recommendation
      = (build_review_packet 110 "pkt_1" "em_1" sampleClaim samplePolicy "reason" []).recommendation :=
  (build_review_packet_deterministic 110 110 "pkt_1" "pkt_1" "em_1" "em_1" sampleClaim sampleClaim
    samplePolicy samplePolicy "reason" "reason" [] [] rfl rfl rfl rfl rfl rfl rfl).1

/-! ## Projections of `build_review_packet` -/

/-- The `in_window` value computed at lines 89–93. -/
def window_check (today : Int) (claim : ClaimExtract) (policy : PolicyDoc) : Option Bool :=
  claim.purchase_date.map (fun d => decide (today - d ≤ policy.warranty_period_months * 30))

/-- The `(recommendation, confidence, decision reasoning)` triple of a packet. -/
def packet_decision (today : Int) (claim : ClaimExtract) (policy : PolicyDoc)
    (excerpts : List PolicyExcerpt) : String × String × List String :=
  resolve_decision (lowerStr claim.issue_description) claim.proof_of_purchase_present
    (window_check today claim policy)
    (exclusion_reason_of (lowerStr claim.issue_description)) excerpts

theorem brp_recommendation (today : Int) (pid eid : String) (claim : ClaimExtract)
    (policy : PolicyDoc) (reason : String) (excerpts : List PolicyExcerpt) :
    (build_review_packet today pid eid claim policy reason excerpts).recommendation =
      (packet_decision today claim policy excerpts).1 := rfl

theorem brp_confidence (today : Int) (pid eid : String) (claim : ClaimExtract)
    (policy : PolicyDoc) (reason : String) (excerpts : List PolicyExcerpt) :
    (build_review_packet today pid eid claim policy reason excerpts).confidence =
      (packet_decision today claim policy excerpts).2.1 := rfl

/-- The three follow-up questions generated before the address patch. -/
def followups_base (claim : ClaimExtract) : List String :=
  (if strTruthy claim.product_name then []
   else ["Please confirm the exact product model name (e.g., AeroDry Pro 1800)."]) ++
  (if claim.proof_of_purchase_present then []
   else ["Please provide proof of purchase (invoice/receipt or order ID)."]) ++
  (if claim.purchase_date.isSome then []
   else ["Please confirm the exact purchase date (or share the receipt showing the date)."])

theorem brp_followups (today : Int) (pid eid : String) (claim : ClaimExtract)
    (policy : PolicyDoc) (reason : String) (excerpts : List PolicyExcerpt) :
    (build_review_packet today pid eid claim policy reason excerpts).customer_followup_questions =
      dedupKeepOrder
        (if (packet_decision today claim policy excerpts).1 == "APPROVE"
            && !(strTruthy claim.shipping_address) then
          followups_base claim ++
            ["Please provide your shipping/return address so we can generate the return label."]
        else followups_base claim) := rfl

/-- The reasoning lines contributed by the warranty-window check. -/
def window_reasoning (today : Int) (claim : ClaimExtract) (policy : PolicyDoc) : List String :=
  match claim.purchase_date with
  | some d =>
      ["Warranty window check: " ++ toString (today - d) ++
       " days since purchase (limit ~" ++ toString (policy.warranty_period_months * 30) ++ " days)."]
  | none => []

theorem brp_reasoning (today : Int) (pid eid : String) (claim : ClaimExtract)
    (policy : PolicyDoc) (reason : String) (excerpts : List PolicyExcerpt) :
    (build_review_packet today pid eid claim policy reason excerpts).reasoning =
      (let r := window_reasoning today claim policy ++
        (packet_decision today claim policy excerpts).2.2
       let r := if (packet_decision today claim policy excerpts).1 == "APPROVE"
            && !(strTruthy claim.shipping_address) then
          r ++ ["Shipping address is needed to proceed with logistics after approval (does not affect eligibility)."]
        else r
       if r.isEmpty then
        ["Recommendation based on available claim details and referenced policy sections."]
       else r) := rfl

/-! ## Claim C1 — a missing address never blocks an approval -/

/-- The claim's eligibility condition: the warranty window is known and true,
or the window is unknown and the issue text contains "last month". -/
def in_window_or_assumed (today : Int) (claim : ClaimExtract) (policy : PolicyDoc) : Bool :=
  match claim.purchase_date with
  | some d => decide (today - d ≤ policy.warranty_period_months * 30)
  | none => strContains (lowerStr claim.issue_description) "last month"

/-- C1: with no exclusion match and an in-window (or assumed in-window)
purchase, `build_review_packet` recommends APPROVE even when the shipping
address is absent; in that case the address follow-up question and the
operational reasoning note are appended (earlier follow-ups are kept), and
changing the shipping address never changes the recommendation or the
confidence. -/
theorem address_absence_never_blocks_approve
    (today : Int) (pid eid : String) (claim : ClaimExtract) (policy : PolicyDoc)
    (reason : String) (excerpts : List PolicyExcerpt)
    (h_excl : exclusion_reason_of (lowerStr claim.issue_description) = none)
    (h_win : in_window_or_assumed today claim policy = true) :
    (build_review_packet today pid eid claim policy reason excerpts).recommendation = "APPROVE" ∧
    (strTruthy claim.shipping_address = false →
      "Please provide your shipping/return address so we can generate the return label." ∈
        (build_review_packet today pid eid claim policy reason excerpts).customer_followup_questions ∧
      "Shipping address is needed to proceed with logistics after approval (does not affect eligibility)." ∈
        (build_review_packet today pid eid claim policy reason excerpts).reasoning ∧
      (∀ q ∈ followups_base claim,
        q ∈ (build_review_packet today pid eid claim policy reason excerpts).customer_followup_questions)) ∧
    (∀ a : Option String,
      (build_review_packet today pid eid { claim with shipping_address := a } policy reason
          excerpts).recommendation =
        (build_review_packet today pid eid claim policy reason excerpts).recommendation ∧
      (build_review_packet today pid eid { claim with shipping_address := a } policy reason
          excerpts).confidence =
        (build_review_packet today pid eid claim policy reason excerpts).confidence) := by
  have hrec : (packet_decision today claim policy excerpts).1 = "APPROVE" := by
    rw [packet_decision, h_excl]
    rw [in_window_or_assumed] at h_win
    rw [window_check]
    cases hpd : claim.purchase_date with
    | none =>
        rw [hpd] at h_win
        simp only [] at h_win
        simp [resolve_decision, h_win]
    | some d =>
        rw [hpd] at h_win
        simp at h_win
        simp [resolve_decision, h_win]
  refine ⟨by rw [brp_recommendation]; exact hrec, ?_, ?_⟩
  · intro haddr
    have hcond : ((packet_decision today claim policy excerpts).1 == "APPROVE"
        && !(strTruthy claim.shipping_address)) = true := by
      rw [hrec, haddr]; rfl
    have hfoll : (build_review_packet today pid eid claim policy reason
        excerpts).customer_followup_questions =
        dedupKeepOrder (followups_base claim ++
          ["Please provide your shipping/return address so we can generate the return label."]) := by
      rw [brp_followups, hcond]
      simp
    have hreas : (build_review_packet today pid eid claim policy reason excerpts).reasoning =
        window_reasoning today claim policy ++
          (packet_decision today claim policy excerpts).2.2 ++
          ["Shipping address is needed to proceed with logistics after approval (does not affect eligibility)."] := by
      rw [brp_reasoning]
      simp only [hcond, eq_self_iff_true, if_true]
      rw [if_neg]
      simp [List.isEmpty_iff]
    refine ⟨?_, ?_, ?_⟩
    · rw [hfoll, mem_dedupKeepOrder]
      simp
    · rw [hreas]
      simp
    · intro q hq
      rw [hfoll, mem_dedupKeepOrder]
      exact List.mem_append_left _ hq
  · intro a
    exact ⟨rfl, rfl⟩

theorem address_absence_never_blocks_approve_witness :
    (build_review_packet 110 "pkt_1" "em_1" sampleClaim samplePolicy "reason" []).recommendation
      = "APPROVE" :=
  (address_absence_never_blocks_approve 110 "pkt_1" "em_1" sampleClaim samplePolicy "reason" []
    (by decide) (by decide)).1

/-! ## Claim C3 — exclusions force a high-confidence rejection -/

/-- C3: whenever the lowercased issue description matches one of the three
exclusion rules, `build_review_packet` recommends REJECT with confidence
high, regardless of the warranty window and of proof-of-purchase; the
reasoning cites the exclusion and quotes the first excerpt whose section
starts with "Exclusion" when one exists, else a generic reference. -/
theorem exclusion_forces_reject
    (today : Int) (pid eid : String) (claim : ClaimExtract) (policy : PolicyDoc)
    (reason : String) (excerpts : List PolicyExcerpt) (er : String)
    (h_excl : exclusion_reason_of (lowerStr claim.issue_description) = some er) :
    (build_review_packet today pid eid claim policy reason excerpts).recommendation = "REJECT" ∧
    (build_review_packet today pid eid claim policy reason excerpts).confidence = "high" ∧
    ("Claim matches an exclusion condition: " ++ er) ∈
      (build_review_packet today pid eid claim policy reason excerpts).reasoning ∧
    (match find_policy_exclusion_excerpt excerpts with
     | some t => ("Policy basis (exclusion excerpt): " ++ t) ∈
        (build_review_packet today pid eid claim policy reason excerpts).reasoning
     | none => "Policy basis: exclusion section applies (see referenced excerpts)." ∈
        (build_review_packet today pid eid claim policy reason excerpts).reasoning) := by
  have hdec : packet_decision today claim policy excerpts =
      ("REJECT", "high",
        ("Claim matches an exclusion condition: " ++ er) ::
        (match find_policy_exclusion_excerpt excerpts with
         | some t => ["Policy basis (exclusion excerpt): " ++ t]
         | none => ["Policy basis: exclusion section applies (see referenced excerpts)."])) := by
    rw [packet_decision, h_excl]; rfl
  have hcond : ((packet_decision today claim policy excerpts).1 == "APPROVE"
      && !(strTruthy claim.shipping_address)) = false := by
    rw [hdec]; rfl
  have hreas : (build_review_packet today pid eid claim policy reason excerpts).reasoning =
      window_reasoning today claim policy ++
        (packet_decision today claim policy excerpts).2.2 := by
    rw [brp_reasoning]
    simp only [hcond, Bool.false_eq_true, if_false]
    rw [if_neg]
    rw [hdec]
    simp [List.isEmpty_iff]
  refine ⟨by rw [brp_recommendation, hdec], by rw [brp_confidence, hdec], ?_, ?_⟩
  · rw [hreas, hdec]
    simp
  · rw [hreas, hdec]
    cases hfe : find_policy_exclusion_excerpt excerpts <;> simp

/-- Concrete claim matching the voltage exclusion. -/
def voltageClaim : ClaimExtract :=
  { issue_description := "Used with a 220V converter while traveling abroad"
    purchase_date := some 100
    proof_of_purchase_present := true }

theorem exclusion_forces_reject_witness :
    (build_review_packet 110 "pkt_2" "em_2" voltageClaim samplePolicy "reason" []).recommendation
      = "REJECT" :=
  (exclusion_forces_reject 110 "pkt_2" "em_2" voltageClaim samplePolicy "reason" []
    "Used with a voltage converter / non-standard voltage (excluded)." (by decide)).1

/-! ## Claim C4 — contents of `missing_fields`

The claim says `missing_fields` is determined by exactly the four fields
{product_name, purchase_date, issue_description, proof_of_purchase} and that
no other name ever appears.  The source (`_to_claim_extract` lines 134–150)
also appends `"customer_name"` when neither the extract nor the email carries
a customer name, and `"shipping_address"` when `require_address` is set. -/

/-- Concrete extraction config used by the extraction witnesses. -/
def sampleCfg : ExtractionConfig :=
  { known_products := ["AeroDry Pro 1800"] }

/-- Concrete email without a customer name. -/
def anonEmail : EmailMessage :=
  { email_id := "em_4", subject := "warranty", body := "The motor stopped." }

/-- Concrete extract record without a customer name. -/
def anonData : LLMExtract :=
  { issue_description := "The motor stopped." }

/-- C4 counterexample: on an email with no customer name, `missing_fields`
contains `"customer_name"`, which is none of the four names the claim
allows. -/
theorem missing_fields_counterexample :
    "customer_name" ∈
      (extract_with sampleCfg (fun _ => none) anonEmail anonData).missing_fields ∧
    "customer_name" ∉
      (["product_name", "purchase_date", "issue_description", "proof_of_purchase"] :
        List String) := by
  decide

/-- The shape of the `missing` list built at `_to_claim_extract` lines
134–150, abstracted over its six conditions. -/
def missing_list (c1 c2 c3 c4 c5 c6 : Bool) : List String :=
  (if c1 then [] else ["customer_name"]) ++
  (if c2 then ["product_name"] else []) ++
  (if c3 then ["purchase_date"] else []) ++
  (if c4 then ["issue_description"] else []) ++
  (if c5 then [] else ["proof_of_purchase"]) ++
  (if c6 then ["shipping_address"] else [])

theorem mem_missing_list_iff (f : String) (c1 c2 c3 c4 c5 c6 : Bool) :
    f ∈ missing_list c1 c2 c3 c4 c5 c6 ↔
      ((f = "customer_name" ∧ c1 = false) ∨ (f = "product_name" ∧ c2 = true) ∨
       (f = "purchase_date" ∧ c3 = true) ∨ (f = "issue_description" ∧ c4 = true) ∨
       (f = "proof_of_purchase" ∧ c5 = false) ∨ (f = "shipping_address" ∧ c6 = true)) := by
  cases c1 <;> cases c2 <;> cases c3 <;> cases c4 <;> cases c5 <;> cases c6 <;>
    simp [missing_list]

theorem strTruthy_pyOr (a b : Option String) :
    strTruthy (pyOr a b) = (strTruthy a || strTruthy b) := by
  rw [pyOr]; cases h : strTruthy a <;> simp [h]

/-- C4 (amended): `missing_fields` is determined exactly by six conditions —
each of the four claimed names appears iff the corresponding post-processed
field is absent, `"customer_name"` appears iff the resulting customer name is
absent, `"shipping_address"` appears iff the config requires an address and
none was extracted — and no other name ever appears. -/
theorem missing_fields_characterization (cfg : ExtractionConfig)
    (parse_date : String → Option Int) (email : EmailMessage) (data : LLMExtract) :
    ("customer_name" ∈ (extract_with cfg parse_date email data).missing_fields ↔
      strTruthy (extract_with cfg parse_date email data).customer_name = false) ∧
    ("product_name" ∈ (extract_with cfg parse_date email data).missing_fields ↔
      (extract_with cfg parse_date email data).product_name = none) ∧
    ("purchase_date" ∈ (extract_with cfg parse_date email data).missing_fields ↔
      (extract_with cfg parse_date email data).purchase_date = none) ∧
    ("issue_description" ∈ (extract_with cfg parse_date email data).missing_fields ↔
      (extract_with cfg parse_date email data).issue_description = "") ∧
    ("proof_of_purchase" ∈ (extract_with cfg parse_date email data).missing_fields ↔
      (extract_with cfg parse_date email data).proof_of_purchase_present = false) ∧
    ("shipping_address" ∈ (extract_with cfg parse_date email data).missing_fields ↔
      (cfg.require_address = true ∧
        strTruthy (extract_with cfg parse_date email data).shipping_address = false)) ∧
    (∀ f ∈ (extract_with cfg parse_date email data).missing_fields,
      f = "customer_name" ∨ f = "product_name" ∨ f = "purchase_date" ∨
      f = "issue_description" ∨ f = "proof_of_purchase" ∨ f = "shipping_address") := by
  have hm : (extract_with cfg parse_date email data).missing_fields =
      missing_list (strTruthy data.customer_name || strTruthy email.customer_name)
        (normalize_product cfg.known_products
          (orDefaultStr (pyOr data.product_name data.product_model_hint) "")).isEmpty
        (if strTruthy data.purchase_date then parse_date (data.purchase_date.getD "")
         else none).isNone
        (trimStr data.issue_description).isEmpty
        (data.proof_of_purchase_present || email.attachments.any attachment_is_proof)
        (cfg.require_address && !(strTruthy data.shipping_address)) := rfl
  have hcu : (extract_with cfg parse_date email data).customer_name =
      pyOr data.customer_name email.customer_name := rfl
  have hpn : (extract_with cfg parse_date email data).product_name =
      (if (normalize_product cfg.known_products
            (orDefaultStr (pyOr data.product_name data.product_model_hint) "")).isEmpty
       then none
       else some (normalize_product cfg.known_products
         (orDefaultStr (pyOr data.product_name data.product_model_hint) ""))) := rfl
  have hpd : (extract_with cfg parse_date email data).purchase_date =
      (if strTruthy data.purchase_date then parse_date (data.purchase_date.getD "")
       else none) := rfl
  have hid : (extract_with cfg parse_date email data).issue_description =
      trimStr data.issue_description := rfl
  have hpp : (extract_with cfg parse_date email data).proof_of_purchase_present =
      (data.proof_of_purchase_present || email.attachments.any attachment_is_proof) := rfl
  have hsa : (extract_with cfg parse_date email data).shipping_address =
      data.shipping_address := rfl
  rw [hm, hcu, hpn, hpd, hid, hpp, hsa]
  refine ⟨?_, ?_, ?_, ?_, ?_, ?_, ?_⟩
  · rw [mem_missing_list_iff]
    rw [strTruthy_pyOr]
    cases strTruthy data.customer_name <;> cases strTruthy email.customer_name <;> simp
  · rw [mem_missing_list_iff]
    cases h : (normalize_product cfg.known_products
        (orDefaultStr (pyOr data.product_name data.product_model_hint) "")).isEmpty <;> simp
  · rw [mem_missing_list_iff]
    cases h : (if strTruthy data.purchase_date then parse_date (data.purchase_date.getD "")
        else none) <;> simp
  · rw [mem_missing_list_iff]
    rw [← String.isEmpty_iff (trimStr data.issue_description)]
    simp
  · rw [mem_missing_list_iff]
    cases data.proof_of_purchase_present <;>
      cases email.attachments.any attachment_is_proof <;> simp
  · rw [mem_missing_list_iff]
    cases cfg.require_address <;> cases strTruthy data.shipping_address <;> simp
  · intro f hf
    rw [mem_missing_list_iff] at hf
    tauto

theorem missing_fields_characterization_witness :
    "customer_name" ∈ (extract_with sampleCfg (fun _ => none) anonEmail anonData).missing_fields :=
  (missing_fields_characterization sampleCfg (fun _ => none) anonEmail anonData).1.mpr (by decide)

/-! ## Claim C5 — extraction confidence as a function of missing fields -/

theorem confidence_of_count (l : List String) :
    ((if 3 ≤ l.length then "low" else if 1 ≤ l.length then "medium" else "high") = "high"
      ↔ l = []) ∧
    ((if 3 ≤ l.length then "low" else if 1 ≤ l.length then "medium" else "high") = "low"
      ↔ 3 ≤ l.length) ∧
    ((if 3 ≤ l.length then "low" else if 1 ≤ l.length then "medium" else "high") = "medium"
      ↔ (l.length = 1 ∨ l.length = 2)) := by
  rcases l with _ | ⟨a, l⟩
  · exact ⟨by simp, by simp, by simp⟩
  rcases l with _ | ⟨b, l⟩
  · exact ⟨by simp, by simp, by simp⟩
  rcases l with _ | ⟨c, l⟩
  · exact ⟨by simp, by simp, by simp⟩
  have hlen : (a :: b :: c :: l).length = l.length + 3 := by simp
  rw [hlen, if_pos (by omega)]
  refine ⟨by simp, ?_, ?_⟩
  · simp
    try omega
  · constructor
    · intro h
      exact absurd h (by decide)
    · rintro (h | h) <;> exact absurd h (by omega)

/-- C5: the extraction confidence is `"high"` iff `missing_fields` is empty,
`"low"` iff it has at least three entries, and `"medium"` iff it has one or
two entries. -/
theorem extraction_confidence_rule (cfg : ExtractionConfig)
    (parse_date : String → Option Int) (email : EmailMessage) (data : LLMExtract) :
    ((extract_with cfg parse_date email data).extraction_confidence = "high" ↔
      (extract_with cfg parse_date email data).missing_fields = []) ∧
    ((extract_with cfg parse_date email data).extraction_confidence = "low" ↔
      3 ≤ (extract_with cfg parse_date email data).missing_fields.length) ∧
    ((extract_with cfg parse_date email data).extraction_confidence = "medium" ↔
      ((extract_with cfg parse_date email data).missing_fields.length = 1 ∨
       (extract_with cfg parse_date email data).missing_fields.length = 2)) :=
  confidence_of_count _

/-! ## Claim C9 — proof-of-purchase inference in the heuristic path

The claim requires the image/PDF extension check for the heuristic path, but
`_heuristic_extract` (lines 246–250) tests only for the keywords
"invoice"/"receipt"/"order" in the filename; the extension-restricted check
of `_to_claim_extract` (lines 124–128) is only OR-ed on top of it. -/

/-- Concrete email whose only attachment has a proof keyword but no image/PDF
extension. -/
def txtInvoiceEmail : EmailMessage :=
  { email_id := "em_9", subject := "Warranty claim", body := "The hair dryer stopped working."
    attachments := ["invoice.txt"] }

/-- C9 counterexample: with attachment `invoice.txt` (keyword but no image/PDF
extension) the heuristic extraction path reports proof-of-purchase present. -/
theorem heuristic_proof_counterexample :
    attachment_is_proof "invoice.txt" = false ∧
    (extract_heuristic sampleCfg (fun _ => none) (fun _ => none) (fun _ => none)
      txtInvoiceEmail).proof_of_purchase_present = true := by
  decide

/-- C9 (amended): in the heuristic extraction path, proof-of-purchase is
present exactly when some attachment filename contains "invoice", "receipt"
or "order" — with no extension requirement. -/
theorem heuristic_proof_characterization (cfg : ExtractionConfig)
    (parse_date : String → Option Int) (order_scan : String → Option String)
    (date_scan : String → Option Int) (email : EmailMessage) :
    (extract_heuristic cfg parse_date order_scan date_scan email).proof_of_purchase_present =
      email.attachments.any attachment_has_proof_word := by
  show ((heuristic_extract cfg order_scan date_scan email).proof_of_purchase_present ||
      email.attachments.any attachment_is_proof) = email.attachments.any attachment_has_proof_word
  show (email.attachments.any attachment_has_proof_word ||
      email.attachments.any attachment_is_proof) = email.attachments.any attachment_has_proof_word
  cases hw : email.attachments.any attachment_has_proof_word with
  | true => rfl
  | false =>
      have hp : email.attachments.any attachment_is_proof = false := by
        rw [List.any_eq_false] at hw ⊢
        intro a ha
        have := hw a ha
        rw [attachment_is_proof]
        rw [attachment_has_proof_word] at this
        simp_all
      rw [hp]
      rfl

/-! ## Claim C6 — exclusion excerpts emitted by `retrieve_excerpts`

The claim says that when the exclusion ranking yields zero non-zero-overlap
results, the first 2 raw exclusions are emitted instead.  In the source the
ranked list (`_rank_clauses`) contains every clause, zero-overlap ones
included, so it is empty exactly when the policy has no exclusions; the
two-clause fallback can then only emit the empty list. -/

theorem length_insertByOverlap (x : Nat × String) (l : List (Nat × String)) :
    (insertByOverlap x l).length = l.length + 1 := by
  induction l with
  | nil => rfl
  | cons y ys ih =>
      rw [insertByOverlap]
      split
      · simp [ih]
      · simp

theorem length_sortByOverlapDesc (l : List (Nat × String)) :
    (sortByOverlapDesc l).length = l.length := by
  induction l with
  | nil => rfl
  | cons x xs ih => rw [sortByOverlapDesc, length_insertByOverlap, ih, List.length_cons]

theorem mem_insertByOverlap {a x : Nat × String} {l : List (Nat × String)} :
    a ∈ insertByOverlap x l ↔ (a = x ∨ a ∈ l) := by
  induction l with
  | nil => simp [insertByOverlap]
  | cons y ys ih =>
      rw [insertByOverlap]
      split
      · rw [List.mem_cons, ih]
        simp [List.mem_cons]
        tauto
      · simp [List.mem_cons]

theorem mem_sortByOverlapDesc {a : Nat × String} {l : List (Nat × String)} :
    a ∈ sortByOverlapDesc l ↔ a ∈ l := by
  induction l with
  | nil => simp [sortByOverlapDesc]
  | cons x xs ih => rw [sortByOverlapDesc, mem_insertByOverlap, ih, List.mem_cons]

theorem pairwise_insertByOverlap (x : Nat × String) (l : List (Nat × String))
    (h : l.Pairwise (fun p q => q.1 ≤ p.1)) :
    (insertByOverlap x l).Pairwise (fun p q => q.1 ≤ p.1) := by
  induction l with
  | nil => simp [insertByOverlap]
  | cons y ys ih =>
      rw [insertByOverlap]
      rw [List.pairwise_cons] at h
      split
      · rename_i hxy
        rw [List.pairwise_cons]
        refine ⟨fun z hz => ?_, ih h.2⟩
        rcases mem_insertByOverlap.mp hz with rfl | hz
        · exact Nat.le_of_lt hxy
        · exact h.1 z hz
      · rename_i hxy
        rw [List.pairwise_cons]
        refine ⟨fun z hz => ?_, List.pairwise_cons.mpr h⟩
        rcases List.mem_cons.mp hz with rfl | hz
        · exact Nat.le_of_not_lt hxy
        · exact Nat.le_trans (h.1 z hz) (Nat.le_of_not_lt hxy)

theorem pairwise_sortByOverlapDesc (l : List (Nat × String)) :
    (sortByOverlapDesc l).Pairwise (fun p q => q.1 ≤ p.1) := by
  induction l with
  | nil => simp [sortByOverlapDesc]
  | cons x xs ih => exact pairwise_insertByOverlap x _ ih

theorem length_rank_clauses (clauses : List String) (issue : String) :
    (rank_clauses clauses issue).length = clauses.length := by
  rw [rank_clauses, List.length_map, length_sortByOverlapDesc, List.length_map]

theorem mem_rank_clauses {c : String} {clauses : List String} {issue : String}
    (h : c ∈ rank_clauses clauses issue) : c ∈ clauses := by
  rw [rank_clauses] at h
  rcases List.mem_map.mp h with ⟨sc, hsc, rfl⟩
  rcases List.mem_map.mp (mem_sortByOverlapDesc.mp hsc) with ⟨d, hd, rfl⟩
  exact hd

theorem key_eq_of_mem_scored {sc : Nat × String} {clauses : List String} {issue : String}
    (h : sc ∈ sortByOverlapDesc (clauses.map (fun c => (tokenOverlap issue c, c)))) :
    sc.1 = tokenOverlap issue sc.2 := by
  rcases List.mem_map.mp (mem_sortByOverlapDesc.mp h) with ⟨d, _, rfl⟩
  rfl

theorem pairwise_rank_clauses (clauses : List String) (issue : String) :
    (rank_clauses clauses issue).Pairwise
      (fun c d => tokenOverlap issue d ≤ tokenOverlap issue c) := by
  rw [rank_clauses, List.pairwise_map]
  refine (pairwise_sortByOverlapDesc _).imp_of_mem ?_
  intro a b ha hb hab
  rw [← key_eq_of_mem_scored ha, ← key_eq_of_mem_scored hb]
  exact hab

theorem filter_excl_of_ne (lbl : String) (hlbl : (lbl == "Exclusions") = false)
    (pid : Option String) (l : List String) :
    (l.map (fun c => ({ sectionName := lbl, excerpt := c, policy_id := pid } :
      PolicyExcerpt))).filter (fun e => e.sectionName == "Exclusions") = [] := by
  induction l with
  | nil => rfl
  | cons c cs ih => simp [List.filter, hlbl, ih]

theorem filter_excl_keep (pid : Option String) (l : List String) :
    (l.map (fun c => ({ sectionName := "Exclusions", excerpt := c, policy_id := pid } :
      PolicyExcerpt))).filter (fun e => e.sectionName == "Exclusions") =
      l.map (fun c => ({ sectionName := "Exclusions", excerpt := c, policy_id := pid } :
        PolicyExcerpt)) := by
  induction l with
  | nil => rfl
  | cons c cs ih => simp [List.filter, ih]

theorem excl_filter_eq (policy : PolicyDoc) (claim : ClaimExtract) :
    (retrieve_excerpts policy claim).filter (fun e => e.sectionName == "Exclusions") =
      (exclusion_pick policy (lowerStr claim.issue_description)).map (fun e =>
        ({ sectionName := "Exclusions", excerpt := e, policy_id := some policy.policy_id } :
          PolicyExcerpt)) := by
  rw [retrieve_excerpts]
  simp only [List.filter_append]
  rw [filter_excl_of_ne "Covered Issues" rfl, filter_excl_of_ne "Required Proof" rfl,
    filter_excl_keep]
  simp [List.filter]

/-- C6 (amended): `retrieve_excerpts` always emits the first
`min 3 (number of exclusions)` exclusion clauses of the stable
descending-overlap ranking; every emitted clause is one of the policy's
exclusions, the emitted list is ordered by non-increasing token overlap with
the lowercased issue text, and the raw-two-clause fallback path fires only
when the policy has no exclusions at all, in which case nothing is
emitted. -/
theorem exclusion_excerpts_characterization (policy : PolicyDoc) (claim : ClaimExtract) :
    ((retrieve_excerpts policy claim).filter (fun e => e.sectionName == "Exclusions")).length
      = min 3 policy.exclusions.length ∧
    (∀ e ∈ (retrieve_excerpts policy claim).filter (fun e => e.sectionName == "Exclusions"),
      e.excerpt ∈ policy.exclusions) ∧
    ((retrieve_excerpts policy claim).filter (fun e => e.sectionName == "Exclusions")).Pairwise
      (fun e1 e2 => tokenOverlap (lowerStr claim.issue_description) e2.excerpt ≤
        tokenOverlap (lowerStr claim.issue_description) e1.excerpt) ∧
    (policy.exclusions = [] →
      (retrieve_excerpts policy claim).filter (fun e => e.sectionName == "Exclusions") = []) := by
  rw [excl_filter_eq]
  by_cases hE : policy.exclusions = []
  · rw [exclusion_pick, hE]
    simp [rank_clauses, sortByOverlapDesc]
  · have hpick : exclusion_pick policy (lowerStr claim.issue_description) =
        (rank_clauses policy.exclusions (lowerStr claim.issue_description)).take 3 := by
      rw [exclusion_pick, if_neg]
      intro hc
      rw [List.isEmpty_iff, ← List.length_eq_zero, length_rank_clauses,
        List.length_eq_zero] at hc
      exact hE hc
    rw [hpick]
    refine ⟨?_, ?_, ?_, ?_⟩
    · rw [List.length_map, List.length_take, length_rank_clauses]
    · intro e he
      rcases List.mem_map.mp he with ⟨c, hc, rfl⟩
      exact mem_rank_clauses (List.mem_of_mem_take hc)
    · rw [List.pairwise_map]
      exact ((pairwise_rank_clauses _ _).sublist (List.take_sublist _ _))
    · intro h
      exact absurd h hE

/-- Concrete policy whose three exclusions share no token with the issue. -/
def scratchPolicy : PolicyDoc :=
  { policy_id := "policy_aerodry_pro_1800"
    product_name := "AeroDry Pro 1800"
    warranty_period_months := 3
    exclusions := ["water damage from immersion", "unauthorized repair attempts",
                   "cosmetic scratches and dents"] }

/-- Concrete claim with zero token overlap against every exclusion. -/
def noisyClaim : ClaimExtract :=
  { issue_description := "makes a loud noise" }

/-- C6 counterexample: the exclusion ranking yields zero non-zero-overlap
results, yet three (not two) exclusion excerpts are emitted. -/
theorem exclusion_fallback_counterexample :
    (∀ c ∈ scratchPolicy.exclusions,
      tokenOverlap (lowerStr noisyClaim.issue_description) c = 0) ∧
    ((retrieve_excerpts scratchPolicy noisyClaim).filter
      (fun e => e.sectionName == "Exclusions")).length = 3 := by
  decide

theorem exclusion_excerpts_characterization_witness :
    (retrieve_excerpts samplePolicy sampleClaim).filter
      (fun e => e.sectionName == "Exclusions") = [] :=
  (exclusion_excerpts_characterization samplePolicy sampleClaim).2.2.2 rfl

/-! ## Claim C7 — policy selection always succeeds; scoring and tie-breaks -/

theorem foldl_bm_keep (text : String) (l : List PolicyDoc)
    (acc : Option PolicyDoc × Nat) (h : ∀ p ∈ l, match_score text p ≤ acc.2) :
    l.foldl (bm_step text) acc = acc := by
  induction l generalizing acc with
  | nil => rfl
  | cons a l ih =>
      rw [List.foldl_cons]
      have hstep : bm_step text acc a = acc := by
        show (if acc.2 < match_score text a then _ else acc) = acc
        rw [if_neg (Nat.not_lt.mpr (h a (List.mem_cons_self a l)))]
      rw [hstep]
      exact ih acc (fun p hp => h p (List.mem_cons_of_mem _ hp))

theorem foldl_bm_lt (text : String) (l : List PolicyDoc) (s : Nat) :
    ∀ acc : Option PolicyDoc × Nat, (∀ p ∈ l, match_score text p < s) → acc.2 < s →
    (l.foldl (bm_step text) acc).2 < s := by
  induction l with
  | nil => intro acc _ hacc; exact hacc
  | cons a l ih =>
      intro acc h hacc
      rw [List.foldl_cons]
      refine ih _ (fun p hp => h p (List.mem_cons_of_mem _ hp)) ?_
      show (if acc.2 < match_score text a then
        ((some a, match_score text a) : Option PolicyDoc × Nat) else acc).2 < s
      split
      · exact h a (List.mem_cons_self a l)
      · exact hacc

theorem foldl_bm_first (text : String) (l1 : List PolicyDoc) (p : PolicyDoc)
    (l2 : List PolicyDoc) (acc : Option PolicyDoc × Nat)
    (h1 : ∀ q ∈ l1, match_score text q < match_score text p)
    (h2 : ∀ q ∈ l2, match_score text q ≤ match_score text p)
    (hacc : acc.2 < match_score text p) :
    (l1 ++ p :: l2).foldl (bm_step text) acc = (some p, match_score text p) := by
  rw [List.foldl_append, List.foldl_cons]
  have hmid := foldl_bm_lt text l1 (match_score text p) acc h1 hacc
  have hstep : bm_step text (l1.foldl (bm_step text) acc) p =
      (some p, match_score text p) := by
    show (if (l1.foldl (bm_step text) acc).2 < match_score text p then _ else _) = _
    rw [if_pos hmid]
  rw [hstep]
  exact foldl_bm_keep text l2 _ h2

/-- C7: with a non-empty catalog, `select_policy` always returns a policy;
in the token-overlap rules a best score of 0 counts as no match, the first
policy attaining the maximal positive score wins (catalog load order breaks
ties), a candidate whose full product name occurs in the matched text gains
+3; and when no rule 1–3 match succeeds, selection falls through to the
first policy in catalog load order with the fallback reason. -/
theorem select_policy_total_and_scored (policies : List PolicyDoc) (claim : ClaimExtract)
    (hne : policies ≠ []) :
    (select_policy policies claim).isSome = true ∧
    (∀ text : String, (∀ p ∈ policies, match_score text p = 0) →
      best_match_from_text policies text = none) ∧
    (∀ (text : String) (p : PolicyDoc) (l1 l2 : List PolicyDoc),
      policies = l1 ++ p :: l2 →
      text.isEmpty = false → (tokenize text).isEmpty = false →
      0 < match_score text p →
      (∀ q ∈ l1, match_score text q < match_score text p) →
      (∀ q ∈ l2, match_score text q ≤ match_score text p) →
      best_match_from_text policies text = some p) ∧
    (∀ (text : String) (p : PolicyDoc),
      strContains (lowerStr text) (lowerStr p.product_name) = true →
      match_score text p = tokenOverlap text p.product_name + 3) ∧
    (∀ (p0 : PolicyDoc) (rest : List PolicyDoc), policies = p0 :: rest →
      (strTruthy claim.product_name = false ∨
        get_policy_by_product policies (claim.product_name.getD "") = none) →
      ((trimStr (claim.product_model_hint.getD "")).isEmpty = true ∨
        best_match_from_text policies (trimStr (claim.product_model_hint.getD "")) = none) →
      best_match_from_text policies (trimStr ((claim.product_name.getD "") ++ " " ++
        (claim.product_model_hint.getD "") ++ " " ++ claim.issue_description)) = none →
      select_policy policies claim =
        some (p0, "Fallback: defaulted to first policy (no match found).")) := by
  refine ⟨?_, ?_, ?_, ?_, ?_⟩
  · cases policies with
    | nil => exact absurd rfl hne
    | cons p0 rest =>
        rw [select_policy]
        split
        · rfl
        · dsimp only
          split
          · rfl
          · split <;> rfl
  · intro text h
    rw [best_match_from_text]
    split_ifs
    · rfl
    · rfl
    · rw [best_match_fold,
        foldl_bm_keep text policies (none, 0) (fun p hp => Nat.le_of_eq (h p hp))]
  · intro text p l1 l2 hsplit hne1 hne2 hpos hlt hle
    rw [best_match_from_text, if_neg (by simp [hne1]), if_neg (by simp [hne2])]
    rw [hsplit, best_match_fold, foldl_bm_first text l1 p l2 (none, 0) hlt hle hpos]
  · intro text p h
    rw [match_score, h]
    rfl
  · intro p0 rest hps hs1 hs2 hs3
    subst hps
    have h1 : (if strTruthy claim.product_name = true then
        (get_policy_by_product (p0 :: rest) (claim.product_name.getD "")).map (fun p =>
          (p, "Exact match on product_name=\x27" ++ claim.product_name.getD "" ++ "\x27."))
      else none) = none := by
      rcases hs1 with h | h
      · rw [if_neg]; simp [h]
      · split_ifs <;> simp [h]
    have h2 : (if (!(trimStr (claim.product_model_hint.getD "")).isEmpty) = true then
        (best_match_from_text (p0 :: rest)
          (trimStr (claim.product_model_hint.getD ""))).map (fun p =>
            (p, "Matched policy using product_model_hint=\x27" ++
              trimStr (claim.product_model_hint.getD "") ++ "\x27."))
      else none) = none := by
      rcases hs2 with h | h
      · rw [if_neg]; simp [h]
      · split_ifs <;> simp [h]
    rw [select_policy]
    rw [h1]
    dsimp only
    rw [h2]
    dsimp only
    rw [hs3]

/-- Catalog used by the C7 witness. -/
def w7catalog : List PolicyDoc :=
  [samplePolicy, { policy_id := "policy_silkwave_2000", product_name := "SilkWave 2000" }]

/-- Claim whose only non-empty field is an issue text with no token of
length ≥ 3. -/
def tokenlessClaim : ClaimExtract :=
  { issue_description := "zz qq" }

theorem select_policy_total_and_scored_witness :
    select_policy w7catalog tokenlessClaim =
      some (samplePolicy, "Fallback: defaulted to first policy (no match found).") :=
  (select_policy_total_and_scored w7catalog tokenlessClaim (by decide)).2.2.2.2
    samplePolicy [{ policy_id := "policy_silkwave_2000", product_name := "SilkWave 2000" }]
    rfl (Or.inl (by decide)) (Or.inl (by decide)) (by decide)

end WarrantyClaims
